import Mathlib

/-!
Shallow embedding of `src/Main.py` of the X-news-image-bot repository.

The program is a single-shot pipeline: load a posted-articles history from a
JSON file, prune old entries, select the first unposted news article, generate
an image prompt, an image and a tweet text via external collaborators, publish
the tweet, and record the article in the history.

Modelling conventions:
* The history store (`posted_articles.json`) is an association list from
  article URLs to ISO-8601 timestamp strings, written `History`.  Python dict
  insertion either overwrites in place or appends at the end; lookup is by key.
* Timestamps are the ISO-8601 strings the code uses; the code compares them
  with Python string `>`, modelled by lexicographic `<` on `String`.
* Every external collaborator (news API, chat/image model, image download,
  media upload, tweet creation) is an oracle function stored in an `Env`
  record; an oracle answering `none` models the Python call raising an
  exception (or returning a falsy payload) that the code catches.
* `datetime.now()` appears twice in the code: once inside
  `clean_old_entries` (as `cutoff = now - HISTORY_RETENTION_DAYS`) and once
  inside `mark_article_posted`.  Both are passed as explicit string
  parameters (`cutoff`, `now`).
-/

namespace XNewsBot

/-- The posted-articles history: a mapping from article URL to an ISO-8601
timestamp string, as stored in `posted_articles.json`.  Modelled as an
association list (Python dict). -/
abbrev History := List (String × String)

/-- Code-point comparison of characters, as Python compares characters. -/
def charLtB (a b : Char) : Bool := a.toNat < b.toNat

/-- Lexicographic comparison of character lists. -/
def lexLtB : List Char → List Char → Bool
  | [], [] => false
  | [], _ :: _ => true
  | _ :: _, [] => false
  | a :: as, b :: bs =>
    if charLtB a b then true else if charLtB b a then false else lexLtB as bs

/-- Python string `<`: lexicographic comparison of the code-point sequences.
The code compares ISO-8601 timestamp strings with `timestamp > cutoff`,
which is `strLtB cutoff timestamp` here. -/
def strLtB (a b : String) : Bool := lexLtB a.data b.data

/-- Dict lookup: the value of the first entry with the given key. -/
def lookupHist : History → String → Option String
  | [], _ => none
  | (k, v) :: rest, url => if k = url then some v else lookupHist rest url

/-- Embeds `load_posted_articles` (Main.py lines 72-82).  The file system is
abstracted as `Option (Option History)`: `none` means `HISTORY_FILE` does not
exist, `some none` means the file exists but `json.load` raises (the
exception is caught and logged), `some (some h)` means the file parses to the
mapping `h`.  The function never fails: both failure shapes give `{}`. -/
def load_posted_articles (file : Option (Option History)) : History :=
  match file with
  | none => []
  | some none => []
  | some (some h) => h

/-- Embeds `clean_old_entries` (Main.py lines 94-97): keeps exactly the
entries whose timestamp string is strictly greater than the cutoff string
`(now - HISTORY_RETENTION_DAYS).isoformat()`, passed here as `cutoff`. -/
def clean_old_entries (cutoff : String) (history : History) : History :=
  history.filter (fun e => strLtB cutoff e.2)

/-- Embeds `is_article_posted` (Main.py lines 100-102): `url in history`. -/
def is_article_posted (url : String) (history : History) : Bool :=
  (lookupHist history url).isSome

/-- Embeds `mark_article_posted` (Main.py lines 105-108):
`history[url] = datetime.now().isoformat()` — overwrite in place when the key
exists, append otherwise. -/
def mark_article_posted (url now : String) (history : History) : History :=
  if is_article_posted url history then
    history.map (fun e => if e.1 = url then (url, now) else e)
  else
    history ++ [(url, now)]

/-- C4: pruning is idempotent — `clean_old_entries` applied twice with the
same cutoff (the code derives the cutoff from the current time, held fixed
here) equals one application. -/
theorem clean_old_entries_idempotent (cutoff : String) (M : History) :
    clean_old_entries cutoff (clean_old_entries cutoff M) =
      clean_old_entries cutoff M := by
  simp [clean_old_entries, List.filter_filter]

/-- C5: `clean_old_entries` is a pure function of the mapping and the current
time (the cutoff string `now - HISTORY_RETENTION_DAYS`), and its result
contains exactly the entries of `M` whose timestamp is strictly greater than
the cutoff. -/
theorem clean_old_entries_membership (cutoff : String) (M : History)
    (k t : String) :
    (k, t) ∈ clean_old_entries cutoff M ↔ (k, t) ∈ M ∧ strLtB cutoff t = true := by
  simp [clean_old_entries, List.mem_filter]

/-- C9: pruning never adds or alters entries — every entry of the pruned
mapping is an entry of the original mapping with the same timestamp string. -/
theorem clean_old_entries_submapping (cutoff : String) (M : History)
    (k t : String) (h : (k, t) ∈ clean_old_entries cutoff M) : (k, t) ∈ M := by
  exact ((clean_old_entries_membership cutoff M k t).mp h).1

/-- Witness for C9 at a concrete input: the entry ("a", "2026-01-01") survives
pruning with cutoff "2025-01-01" and is indeed in the original mapping. -/
theorem clean_old_entries_submapping_witness :
    ("a", "2026-01-01") ∈ ([("a", "2026-01-01")] : History) :=
  clean_old_entries_submapping "2025-01-01" [("a", "2026-01-01")] "a"
    "2026-01-01" (by decide)

/-- A news item as delivered by the news provider: each JSON field may be
missing (`article.get` returns `None`). -/
structure Article where
  title : Option String
  url : Option String
  description : Option String
deriving DecidableEq

/-- Python `a or b` on optional strings: `a` unless `a` is falsy (`None` or
the empty string), in which case `b`.  Embeds the description-or-title
fallback of Main.py line 144. -/
def pyOr (a b : Option String) : Option String :=
  match a with
  | some s => if s = "" then b else some s
  | none => b

/-- The article-scanning loop of `fetch_daily_news` (Main.py lines 137-150):
walk the list in order; skip items whose `url` is missing or empty and items
already in the history; on the first remaining item return
`(title, url, description or title)`; return `(None, None, None)` when the
list is exhausted. -/
def findUnposted (history : History) :
    List Article → Option String × Option String × Option String
  | [] => (none, none, none)
  | a :: rest =>
    match a.url with
    | none => findUnposted history rest
    | some u =>
      if u = "" then findUnposted history rest
      else if is_article_posted u history then findUnposted history rest
      else (a.title, some u, pyOr a.description a.title)

/-- Embeds `fetch_daily_news` (Main.py lines 111-154).  The network call is
abstracted as `resp : Option (List Article)`: `none` models a
`requests.exceptions.RequestException` (network/HTTP error, caught at lines
152-154), `some articles` models a successful response whose parsed
`articles` field is the given list. -/
def fetch_daily_news (resp : Option (List Article)) (history : History) :
    Option String × Option String × Option String :=
  match resp with
  | none => (none, none, none)
  | some articles =>
    if articles.isEmpty then (none, none, none)
    else findUnposted history articles

/-- Follows the spec words for C3: an item is usable when its url is present,
non-empty, and not a key of the history. -/
def usableB (history : History) (a : Article) : Bool :=
  match a.url with
  | none => false
  | some u => if u = "" then false else !(is_article_posted u history)

/-- The scanning loop agrees with "first usable item" on every list. -/
theorem findUnposted_eq_find (H : History) (l : List Article) :
    findUnposted H l =
      match l.find? (usableB H) with
      | some a => (a.title, a.url, pyOr a.description a.title)
      | none => (none, none, none) := by
  induction l with
  | nil => rfl
  | cons a rest ih =>
    match hu : a.url with
    | none => simp [findUnposted, List.find?, usableB, hu, ih]
    | some u =>
      by_cases he : u = ""
      · simp [findUnposted, List.find?, usableB, hu, he, ih]
      · by_cases hp : is_article_posted u H
        · simp [findUnposted, List.find?, usableB, hu, he, hp, ih]
        · simp [findUnposted, List.find?, usableB, hu, he, hp]

/-- C3: on a successful provider response, the selector scans the article
list in the order returned and yields the first item whose url is non-empty
and not in the history (items with missing/empty url are skipped), returning
its title, url and `description or title`; consequently any url it returns
is not a key of the history. -/
theorem fetch_daily_news_first_usable (articles : List Article) (H : History) :
    (fetch_daily_news (some articles) H =
      match articles.find? (usableB H) with
      | some a => (a.title, a.url, pyOr a.description a.title)
      | none => (none, none, none)) ∧
    (∀ u, (fetch_daily_news (some articles) H).2.1 = some u →
      is_article_posted u H = false) := by
  have hmain : fetch_daily_news (some articles) H =
      match articles.find? (usableB H) with
      | some a => (a.title, a.url, pyOr a.description a.title)
      | none => (none, none, none) := by
    match articles with
    | [] => rfl
    | a :: rest => simpa [fetch_daily_news] using findUnposted_eq_find H (a :: rest)
  refine ⟨hmain, fun u hu => ?_⟩
  rw [hmain] at hu
  match hf : articles.find? (usableB H) with
  | none => rw [hf] at hu; simp at hu
  | some a =>
    rw [hf] at hu
    have hus : usableB H a = true := List.find?_some hf
    simp only at hu
    unfold usableB at hus
    match ha : a.url with
    | none => rw [ha] at hus; simp at hus
    | some v =>
      rw [ha] at hus
      rw [ha] at hu
      cases hu
      have hus2 : (if u = "" then false else !(is_article_posted u H)) = true :=
        hus
      by_cases he : u = ""
      · rw [if_pos he] at hus2; exact absurd hus2 (by simp)
      · rw [if_neg he] at hus2
        simpa using hus2

/-- Witness for C3 at a concrete input: with history containing only url "a",
the provider list `[{url:"a"}, {url:"b", title:"B", description:"d"}]` makes
the selector return the second item, whose url "b" is not in the history. -/
theorem fetch_daily_news_first_usable_witness :
    is_article_posted "b" [("a", "2026-01-01")] = false :=
  (fetch_daily_news_first_usable
      [⟨none, some "a", none⟩, ⟨some "B", some "b", some "d"⟩]
      [("a", "2026-01-01")]).2 "b" (by decide)

/-- The scanning loop yields no candidate exactly when every item whose url
is present and non-empty is already in the history. -/
theorem findUnposted_none_iff (H : History) (l : List Article) :
    findUnposted H l = (none, none, none) ↔
      ∀ a ∈ l, ∀ u, a.url = some u → u ≠ "" → is_article_posted u H = true := by
  induction l with
  | nil => simp [findUnposted]
  | cons a rest ih =>
    match hu : a.url with
    | none => simp [findUnposted, hu, ih]
    | some u =>
      by_cases he : u = ""
      · subst he; simp [findUnposted, hu, ih]
      · match hp : is_article_posted u H with
        | true => simp [findUnposted, hu, he, hp, ih]
        | false => simp [findUnposted, hu, he, hp, ih]

/-- C7: the selector returns `(None, None, None)` in exactly three
situations — the provider call fails (network/HTTP error), the article list
is empty, or every listed item carrying a (non-empty) url is already in the
history; being a total function of the abstracted response, it raises in
none of them. -/
theorem fetch_daily_news_absent_iff (resp : Option (List Article))
    (H : History) :
    fetch_daily_news resp H = (none, none, none) ↔
      (resp = none ∨ resp = some [] ∨
        ∃ l, resp = some l ∧
          ∀ a ∈ l, ∀ u, a.url = some u → u ≠ "" →
            is_article_posted u H = true) := by
  match resp with
  | none => simp [fetch_daily_news]
  | some l =>
    cases l with
    | nil => simp [fetch_daily_news]
    | cons a rest =>
      rw [show fetch_daily_news (some (a :: rest)) H =
            findUnposted H (a :: rest) from rfl]
      rw [findUnposted_none_iff]
      simp

/-- C6: loading the history never fails the run — when the file exists and
parses, `load_posted_articles` returns the parsed mapping; when the file is
absent (`none`) or unparseable (`some none`, the caught exception), it
returns the empty mapping rather than raising. -/
theorem load_posted_articles_total (file : Option (Option History)) :
    (∃ h, file = some (some h) ∧ load_posted_articles file = h) ∨
    ((file = none ∨ file = some none) ∧ load_posted_articles file = []) := by
  match file with
  | none => exact Or.inr ⟨Or.inl rfl, rfl⟩
  | some none => exact Or.inr ⟨Or.inr rfl, rfl⟩
  | some (some h) => exact Or.inl ⟨h, rfl, rfl⟩

/-- Embeds `generate_dalle_prompt` (Main.py lines 157-183): a single call to
the chat collaborator on the news description; `none` models a caught
exception. -/
def generate_dalle_prompt (oracle : String → Option String)
    (news_description : String) : Option String :=
  oracle news_description

/-- Embeds `generate_ai_image` (Main.py lines 186-213).  `gen prompt n`
abstracts `client.images.generate(model, prompt, n)` returning the url of the
first returned datum, with `none` for any caught exception (or a missing
url).  Besides the result, the embedding returns the list of
`(prompt, count)` requests issued, so that "no collaborator call" is
expressible. -/
def generate_ai_image (gen : String → Nat → Option String) (prompt : String) :
    Option String × List (String × Nat) :=
  if prompt = "" then (none, [])
  else (gen prompt 1, [(prompt, 1)])

/-- C8: on the empty directive the media generator answers `Absent` having
issued no request at all; on any non-empty directive it issues exactly one
request with count 1 and returns whatever location the collaborator yields
(`none` on failure). -/
theorem generate_ai_image_contract (gen : String → Nat → Option String) :
    generate_ai_image gen "" = (none, []) ∧
    ∀ p, p ≠ "" → generate_ai_image gen p = (gen p 1, [(p, 1)]) := by
  refine ⟨rfl, fun p hp => ?_⟩
  simp [generate_ai_image, hp]

/-- Witness for C8 at a concrete input: the non-empty directive "x" against a
collaborator that always answers produces that answer and exactly one
request of count 1. -/
theorem generate_ai_image_contract_witness :
    generate_ai_image (fun _ _ => some "img") "x" = (some "img", [("x", 1)]) :=
  (generate_ai_image_contract (fun _ _ => some "img")).2 "x" (by decide)

/-- Embeds `generate_tweet_text` (Main.py lines 216-243): a single call to
the chat collaborator on the description and url; `none` models a caught
exception. -/
def generate_tweet_text (oracle : String → String → Option String)
    (news_description news_url : String) : Option String :=
  oracle news_description news_url

/-- Embeds `upload_image_to_twitter` (Main.py lines 246-268): download the
image bytes (`fetchImage`, `none` = request failure), then upload them
(`media_upload`, `none` = caught exception), returning the media id. -/
def upload_image_to_twitter (fetchImage : String → Option String)
    (media_upload : String → Option String) (image_url : String) :
    Option String :=
  match fetchImage image_url with
  | none => none
  | some data => media_upload data

/-- Embeds `post_tweet` (Main.py lines 271-307).  The Python function returns
`None` and swallows every error; what the model returns is the publish
outcome the spec talks about: the post id when `create_tweet` succeeded,
`none` when the media upload failed or returned a falsy id (`if not
media_id`) or when tweet creation raised. -/
def post_tweet (fetchImage media_upload : String → Option String)
    (create_tweet : String → String → Option String)
    (tweet_text image_url : String) : Option String :=
  match upload_image_to_twitter fetchImage media_upload image_url with
  | none => none
  | some media_id =>
    if media_id = "" then none
    else create_tweet tweet_text media_id

/-- The external world of one run: the history file and one oracle per
collaborator call made by `main`. -/
structure Env where
  file : Option (Option History)
  news : Option (List Article)
  chatPrompt : String → Option String
  imageGen : String → Nat → Option String
  chatTweet : String → String → Option String
  fetchImage : String → Option String
  mediaUpload : String → Option String
  createTweet : String → String → Option String

/-- Observable trace of one run of `main`: the value each stage produced
(`none` when the stage was not reached or yielded a falsy result), the
publish outcome, whether the history commit (mark + save) executed, and the
state of the history file after the run. -/
structure RunResult where
  selectedUrl : Option String
  directive : Option String
  imageLoc : Option String
  caption : Option String
  publishResult : Option String
  committed : Bool
  fileAfter : Option (Option History)
deriving DecidableEq

/-- Embeds `main` (Main.py lines 330-382), stage by stage: load and prune the
history, select an article, check `if not news_url or not news_description`,
generate the image prompt, the image and the tweet text (each checked with
`if not ...`), call `post_tweet`, and then — unconditionally, with no look at
the publish outcome — mark the article posted and save the history. -/
def mainRun (env : Env) (cutoff now : String) : RunResult :=
  match fetch_daily_news env.news
      (clean_old_entries cutoff (load_posted_articles env.file)) with
  | (_, some news_url, some news_description) =>
    if news_url = "" ∨ news_description = "" then
      ⟨none, none, none, none, none, false, env.file⟩
    else
      match generate_dalle_prompt env.chatPrompt news_description with
      | none => ⟨some news_url, none, none, none, none, false, env.file⟩
      | some image_prompt =>
        if image_prompt = "" then
          ⟨some news_url, none, none, none, none, false, env.file⟩
        else
          match (generate_ai_image env.imageGen image_prompt).1 with
          | none =>
            ⟨some news_url, some image_prompt, none, none, none, false,
              env.file⟩
          | some image_url =>
            if image_url = "" then
              ⟨some news_url, some image_prompt, none, none, none, false,
                env.file⟩
            else
              match generate_tweet_text env.chatTweet news_description
                  news_url with
              | none =>
                ⟨some news_url, some image_prompt, some image_url, none, none,
                  false, env.file⟩
              | some tweet_text =>
                if tweet_text = "" then
                  ⟨some news_url, some image_prompt, some image_url, none,
                    none, false, env.file⟩
                else
                  ⟨some news_url, some image_prompt, some image_url,
                    some tweet_text,
                    post_tweet env.fetchImage env.mediaUpload env.createTweet
                      tweet_text image_url,
                    true,
                    some (some (mark_article_posted news_url now
                      (clean_old_entries cutoff
                        (load_posted_articles env.file))))⟩
  | (_, _, _) => ⟨none, none, none, none, none, false, env.file⟩

/-- An environment in which every stage up to publishing succeeds but the
image download inside `post_tweet` fails, so publishing yields no post id. -/
def failPublishEnv : Env :=
  ⟨some (some []), some [⟨some "T", some "u1", some "d"⟩],
    fun _ => some "p", fun _ _ => some "img", fun _ _ => some "tw",
    fun _ => none, fun _ => some "m", fun _ _ => some "id"⟩

/-- Counterexample to C1 as stated: in `failPublishEnv` the publish stage
returns no post identifier (the image download fails, so no tweet is ever
created), yet `main` still marks the article and saves the history — the
commit happens without a successful publish. -/
theorem commit_without_publish_counterexample :
    (mainRun failPublishEnv "2026-01-01" "2026-01-08").publishResult = none ∧
    (mainRun failPublishEnv "2026-01-01" "2026-01-08").committed = true :=
  ⟨rfl, rfl⟩

/-- C1 amended: the history commit is performed if and only if every stage
through caption generation yielded a result — equivalently, iff the publish
stage was attempted — regardless of the publish outcome. -/
theorem commit_iff_publish_attempted (env : Env) (cutoff now : String) :
    (mainRun env cutoff now).committed = true ↔
      (mainRun env cutoff now).caption.isSome = true := by
  unfold mainRun
  repeat' split
  all_goals simp

/-- Counterexample to C2 as stated (for the publish stage): in
`failPublishEnv` the publish stage yields no result, yet the persisted
history file after the run differs from the file before the run. -/
theorem mutation_on_publish_failure_counterexample :
    (mainRun failPublishEnv "2026-01-01" "2026-01-08").publishResult = none ∧
    (mainRun failPublishEnv "2026-01-01" "2026-01-08").fileAfter ≠
      failPublishEnv.file :=
  ⟨rfl, by decide⟩

/-- C2 amended: for the directive-generation, image-rendering and
caption-generation stages, a run in which that stage yields no result leaves
the persisted history file exactly as it was before the run.  (The publish
stage, which the claim also listed, does not have this property.) -/
theorem no_mutation_on_generation_failure (env : Env) (cutoff now : String)
    (h : (mainRun env cutoff now).directive = none ∨
      (mainRun env cutoff now).imageLoc = none ∨
      (mainRun env cutoff now).caption = none) :
    (mainRun env cutoff now).fileAfter = env.file := by
  unfold mainRun at *
  repeat' split at h
  all_goals simp_all

/-- An environment in which selection succeeds but directive generation
fails. -/
def failDirectiveEnv : Env :=
  ⟨some (some []), some [⟨some "T", some "u1", some "d"⟩],
    fun _ => none, fun _ _ => some "img", fun _ _ => some "tw",
    fun _ => some "bytes", fun _ => some "m", fun _ _ => some "id"⟩

/-- Witness for the amended C2 at a concrete input: with a failing
directive generator the run leaves the history file untouched. -/
theorem no_mutation_on_generation_failure_witness :
    (mainRun failDirectiveEnv "2026-01-01" "2026-01-08").fileAfter =
      failDirectiveEnv.file :=
  no_mutation_on_generation_failure failDirectiveEnv "2026-01-01" "2026-01-08"
    (Or.inl rfl)

/-- C10: when the first unposted article with a non-empty url has neither a
description nor a title, the selector still returns it — url present, summary
absent — instead of moving on to a later usable article, and the orchestrator
then aborts the run with no commit and no change to the history file. -/
theorem no_summary_candidate_still_selected (u : String) (rest : List Article)
    (env : Env) (cutoff now : String)
    (hnews : env.news = some (⟨none, some u, none⟩ :: rest))
    (hu : u ≠ "")
    (hp : is_article_posted u
      (clean_old_entries cutoff (load_posted_articles env.file)) = false) :
    fetch_daily_news env.news
        (clean_old_entries cutoff (load_posted_articles env.file)) =
      (none, some u, none) ∧
    (mainRun env cutoff now).committed = false ∧
    (mainRun env cutoff now).fileAfter = env.file := by
  have hfetch : fetch_daily_news env.news
      (clean_old_entries cutoff (load_posted_articles env.file)) =
      (none, some u, none) := by
    rw [hnews]
    simp [fetch_daily_news, findUnposted, hu, hp, pyOr]
  refine ⟨hfetch, ?_, ?_⟩ <;> simp only [mainRun, hfetch]

/-- Environment for the C10 witness: the first article has a url but neither
title nor description, and a perfectly usable article follows it. -/
def noSummaryEnv : Env :=
  ⟨some (some []), some [⟨none, some "u1", none⟩, ⟨some "B", some "b", some "d"⟩],
    fun _ => some "p", fun _ _ => some "img", fun _ _ => some "tw",
    fun _ => some "bytes", fun _ => some "m", fun _ _ => some "id"⟩

/-- Witness for C10 at a concrete input: in `noSummaryEnv` the selector
returns the summary-less first article rather than the usable second one, and
the run aborts leaving the history file unchanged. -/
theorem no_summary_candidate_still_selected_witness :
    fetch_daily_news noSummaryEnv.news
        (clean_old_entries "2026-01-01"
          (load_posted_articles noSummaryEnv.file)) =
      (none, some "u1", none) ∧
    (mainRun noSummaryEnv "2026-01-01" "2026-01-08").committed = false ∧
    (mainRun noSummaryEnv "2026-01-01" "2026-01-08").fileAfter =
      noSummaryEnv.file :=
  no_summary_candidate_still_selected "u1" [⟨some "B", some "b", some "d"⟩]
    noSummaryEnv "2026-01-01" "2026-01-08" rfl (by decide) rfl

end XNewsBot
